import Mathlib

/-!
Verification of the dispatch / parameter-resolution / result-routing engine of
`SocketControllerExecutor` (socket-controllers).  The executor's methods are
shallowly embedded as pure Lean functions over an explicit model of the
JavaScript values, errors and metadata they manipulate.  External collaborators
(JSON.parse, class-transformer's plainToClass / classToPlain, class-validator's
validate, the transport) are modelled as an environment of opaque functions, as
the spec treats them as external services consumed through a narrow contract.
-/

namespace SocketControllers

/-- A JavaScript number as observed by this code: either NaN or an integer.
The executor only ever produces numbers through the unary `+` coercion of
textual payloads, for which the integer/NaN distinction is the observable one;
non-integer numerals are outside the behaviour exercised here. -/
inductive JsNum where
  | nan : JsNum
  | int : Int → JsNum
deriving DecidableEq, Repr

/-- A JavaScript runtime value as handled by the executor: the two nullish
values, primitive strings, numbers and booleans, and opaque object references
(identified by an id; sockets, requests, room sets, parsed JSON documents and
class instances are all objects). -/
inductive JsVal where
  | null : JsVal
  | undefined : JsVal
  | str : String → JsVal
  | num : JsNum → JsVal
  | bool : Bool → JsVal
  | obj : Nat → JsVal
deriving DecidableEq, Repr

/-- `value instanceof Object` for a `JsVal`: true exactly for object
references, false for primitives and nullish values. -/
def JsVal.isObjectInstance : JsVal → Bool
  | .obj _ => true
  | _ => false

/-- JavaScript truthiness: `null`, `undefined`, `false`, `0`, `NaN` and the
empty string are falsy, everything else is truthy. -/
def truthy : JsVal → Bool
  | .null => false
  | .undefined => false
  | .bool b => b
  | .num .nan => false
  | .num (.int n) => n != 0
  | .str s => s != ""
  | .obj _ => true

/-- ASCII lower-casing of one character (the type names this code lower-cases
are ASCII identifiers). -/
def lowerChar (c : Char) : Char :=
  if 65 ≤ c.toNat && c.toNat ≤ 90 then Char.ofNat (c.toNat + 32) else c

/-- `formatName.toLowerCase()` on the ASCII constructor names involved. -/
def lowerStr (s : String) : String := String.mk (s.data.map lowerChar)

/-- An ASCII whitespace character (the whitespace forms relevant to the
textual payloads here). -/
def isWS (c : Char) : Bool := c == ' ' || c == '\t' || c == '\n' || c == '\r'

/-- Strip leading and trailing whitespace, as ToNumber does before reading a
numeral. -/
def trimChars (cs : List Char) : List Char :=
  ((cs.dropWhile isWS).reverse.dropWhile isWS).reverse

/-- Accumulate the value of a run of decimal digits; `none` on the first
non-digit character. -/
def digitsValAux : List Char → Nat → Option Nat
  | [], acc => some acc
  | c :: cs, acc =>
    if c.isDigit then digitsValAux cs (acc * 10 + (c.toNat - 48)) else none

/-- An optional-sign decimal numeral's value; `none` when the characters do
not form one. -/
def decNumeral? : List Char → Option Int
  | [] => none
  | '-' :: rest =>
    match rest with
    | [] => none
    | _ => (digitsValAux rest 0).map (fun n => -(n : Int))
  | '+' :: rest =>
    match rest with
    | [] => none
    | _ => (digitsValAux rest 0).map (fun n => (n : Int))
  | cs => (digitsValAux cs 0).map (fun n => (n : Int))

/-- String-to-number conversion as performed by JavaScript ToNumber on the
string inputs this code receives: surrounding whitespace is trimmed, the empty
string converts to 0, an optional-sign decimal numeral converts to that
integer, and anything else converts to NaN.  (Non-integer numeric literals are
outside the inputs exercised by the executor's coercion paths.) -/
def strToNumber (s : String) : JsNum :=
  let cs := trimChars s.data
  if cs = [] then .int 0
  else
    match decNumeral? cs with
    | some n => .int n
    | none => .nan

/-- The unary `+value` coercion (JavaScript ToNumber) on the executor's value
model.  A plain object reference has no numeric content and converts to NaN
(its ToPrimitive form is a non-numeric string). -/
def toNumber : JsVal → JsNum
  | .null => .int 0
  | .undefined => .nan
  | .bool true => .int 1
  | .bool false => .int 0
  | .num n => n
  | .str s => strToNumber s
  | .obj _ => .nan

/-- One field-level error reported by the external `validate` service
(class-validator's ValidationError), kept opaque. -/
structure ValidationError where
  eid : Nat
deriving DecidableEq, Repr

/-- Options handed to class-transformer, kept opaque: the executor only
selects and forwards them. -/
structure ClassTransformOptions where
  oid : Nat
deriving DecidableEq, Repr

/-- An arbitrary error value raised by application code (a handler), described
by the attributes the failure path inspects: its constructor's name, whether it
is an `instanceof Error`, whether it is an `instanceof Object`, its own
enumerable keys, and its `toString()` form. -/
structure ErrObj where
  ctorName : String
  isError : Bool
  isObject : Bool
  ownKeys : List String
  toStr : String
deriving DecidableEq, Repr

/-- The errors that can settle a dispatch as a failure: the executor's own
`ValidationException` (carrying the full list of field errors) and
`ParameterParseJsonError` (carrying the offending value), both subclasses of
the library's `Exception` base class, plus any error raised by a handler. -/
inductive JsError where
  | validationException : List ValidationError → JsError
  | parameterParseJsonError : JsVal → JsError
  | appError : ErrObj → JsError
deriving DecidableEq, Repr

/-- `error.constructor.name`.  `Exception`'s constructor assigns `name` from
`new.target.name`, so the two library errors report their class names. -/
def JsError.ctorName : JsError → String
  | .validationException _ => "ValidationException"
  | .parameterParseJsonError _ => "ParameterParseJsonError"
  | .appError e => e.ctorName

/-- `error instanceof Error`.  The library's `Exception` base class does not
extend `Error`, so the two library errors are not Error instances. -/
def JsError.isErrorInstance : JsError → Bool
  | .validationException _ => false
  | .parameterParseJsonError _ => false
  | .appError e => e.isError

/-- `error instanceof Object`: the library errors are class instances, hence
objects; an application error reports its own object-ness. -/
def JsError.isObjectInstance : JsError → Bool
  | .validationException _ => true
  | .parameterParseJsonError _ => true
  | .appError e => e.isObject

/-- `Object.keys(error)`: own enumerable properties.  `Exception` assigns
`message` and `name`; `ValidationException` additionally assigns `errors`. -/
def JsError.ownKeys : JsError → List String
  | .validationException _ => ["message", "name", "errors"]
  | .parameterParseJsonError _ => ["message", "name"]
  | .appError e => e.ownKeys

/-- `error.toString()`.  The library errors inherit Object's form; the failure
path only consults this for `instanceof Error` values, i.e. app errors. -/
def JsError.toStr : JsError → String
  | .validationException _ => "[object Object]"
  | .parameterParseJsonError _ => "[object Object]"
  | .appError e => e.toStr

/-- A plain (already flattened) object as produced by classToPlain: an ordered
association of own enumerable keys to values. -/
def PlainObj := List (String × JsVal)
deriving instance DecidableEq, Repr for PlainObj

/-- The `reflectedType` recorded for a parameter: the built-in `Object`
constructor, another constructor function (a class) with its `name`, a String
object, or absent. -/
inductive ReflectedType where
  | objectCtor : ReflectedType
  | func : String → ReflectedType
  | strRef : String → ReflectedType
  | undef : ReflectedType
deriving DecidableEq, Repr

/-- `format instanceof Function && format.name ? format.name : format
instanceof String ? format : ""` (handleParamFormat, lines 176-177).  The
built-in Object constructor is a Function named "Object"; a Function with an
empty name and a String object agree with the literal conditional on "". -/
def ReflectedType.formatName : ReflectedType → String
  | .objectCtor => "Object"
  | .func n => n
  | .strRef s => s
  | .undef => ""

/-- `format instanceof Function`. -/
def ReflectedType.isFunction : ReflectedType → Bool
  | .objectCtor => true
  | .func _ => true
  | .strRef _ => false
  | .undef => false

/-- JavaScript truthiness of the reflectedType slot (only `undefined` among
its possible carriers is falsy). -/
def ReflectedType.isTruthy : ReflectedType → Bool
  | .undef => false
  | _ => true

/-- The `value` slot of a parameter's metadata: absent, a query-parameter name
string, or a MessageBodyOptions record (whose only consulted field is its
optional `validate` override). -/
inductive ParamValue where
  | undef : ParamValue
  | name : String → ParamValue
  | bodyOptions : Option Bool → ParamValue

/-- The string a `ParamValue` denotes when used as a property key (JavaScript
coerces non-string keys to strings). -/
def ParamValue.asName : ParamValue → String
  | .undef => "undefined"
  | .name s => s
  | .bodyOptions _ => "[object Object]"

/-- The parameter kinds the executor branches on in `handleAction`; every kind
not among the six socket-context kinds reaches the default branch
(`handleParam`), which is how the message-body kind is handled. -/
inductive ParamType where
  | connectedSocket | socketIo | socketQueryParam | socketId | socketRequest
  | socketRooms | socketBody
deriving DecidableEq, Repr

/-- The per-parameter metadata consulted by the executor: the position of the
formal argument, the source kind, the `value` slot, the optional transform
function, the reflected type, and the optional per-parameter class-transform
options. -/
structure ParamMetadata where
  index : Nat
  type : ParamType
  value : ParamValue
  transform : Option (JsVal → JsVal → JsVal)
  reflectedType : ReflectedType
  classTransformOptions : Option ClassTransformOptions

/-- A reference to an error class, observed through its `name` (the failure
path matches on `constructor.name`, line 273). -/
structure TypeRef where
  name : String
deriving DecidableEq, Repr

/-- The metadata of an emit-on-success or emit-on-fail policy: the outbound
event name (`value`) and optional class-transform options. -/
structure ResultMetadata where
  value : String
  classTransformOptions : Option ClassTransformOptions

/-- The metadata of an emit-on-fail-for policy.  The error-type reference is
stored as the thunk supplied at declaration time. -/
structure FailForMetadata where
  value : String
  classTransformOptions : Option ClassTransformOptions
  errorTypeThunk : Option (Unit → TypeRef)

/-- Modelled from the spec: the `errorType` accessor of the emit-on-fail-for
metadata (the `ActionMetadata` class is not among the given sources).  Per the
spec, the lazily supplied type reference "is resolved at match time, not at
registration time", so reading `errorType` invokes the stored thunk. -/
def FailForMetadata.errorType (m : FailForMetadata) : Option TypeRef :=
  m.errorTypeThunk.map (fun f => f ())

/-- The action kinds (`ActionTypes`): connect, disconnect, message. -/
inductive ActionType where
  | connect | disconnect | message
deriving DecidableEq, Repr

/-- The per-action metadata consulted by the executor.  `executeAction` is
modelled from the spec (the `ActionMetadata` class is not among the given
sources): per spec 4.3 the invoker "calls the handler with the resolved,
ordered argument list", waits for completion, and "a rejection becomes a
failure outcome verbatim" — an `Except`-valued function of the argument
list. -/
structure ActionMetadata where
  name : String
  type : ActionType
  params : List ParamMetadata
  emitOnSuccess : Option ResultMetadata
  emitOnFail : Option ResultMetadata
  emitOnFailFor : Option FailForMetadata
  skipEmitOnEmptyResult : Bool
  executeAction : List JsVal → Except JsError JsVal

/-- A middleware's metadata as consulted by `registerMiddlewares`: its
priority (the sort key) and an opaque identity for its instance. -/
structure MiddlewareMetadata where
  priority : Int
  mid : Nat
deriving DecidableEq, Repr

/-- One connected socket, described by the capabilities the executor reads:
its object identity, its `id`, its handshake query mapping, its underlying
`request` and its `rooms`. -/
structure Socket where
  oid : Nat
  id : String
  handshakeQuery : String → JsVal
  request : JsVal
  rooms : JsVal

/-- The socket, as a JavaScript value (an object reference). -/
def Socket.toVal (s : Socket) : JsVal := .obj s.oid

/-- The executor's own configuration fields: `useClassTransformer`, the two
global class-transform option slots (possibly undefined), the global
`validate` flag, and the root `io` object handed to the constructor. -/
structure ExecConfig where
  useClassTransformer : Bool
  classToPlainTransformOptions : Option ClassTransformOptions
  plainToClassTransformOptions : Option ClassTransformOptions
  validate : Bool
  io : JsVal

/-- The external services the executor calls, modelled as opaque functions:
`JSON.parse` (`none` models a thrown SyntaxError), class-transformer's
`plainToClass` and `classToPlain` (the latter once per value domain it is
applied to: handler results and errors), and class-validator's `validate`. -/
structure Env where
  jsonParse : String → Option JsVal
  plainToClass : ReflectedType → JsVal → Option ClassTransformOptions → JsVal
  classToPlainVal : JsVal → Option ClassTransformOptions → PlainObj
  classToPlain : JsError → Option ClassTransformOptions → PlainObj
  validate : JsVal → List ValidationError

/-- The comparison underlying `action.params.sort((a, b) => a.index -
b.index)`: ascending `index`. -/
def paramLE (p q : ParamMetadata) : Prop := p.index ≤ q.index

instance : DecidableRel paramLE := fun p q => Nat.decLe p.index q.index

instance : IsTotal ParamMetadata paramLE := ⟨fun p q => Nat.le_total p.index q.index⟩

instance : IsTrans ParamMetadata paramLE := ⟨fun _ _ _ h₁ h₂ => Nat.le_trans h₁ h₂⟩

/-- `action.params.sort((param1, param2) => param1.index - param2.index)`
(handleAction, line 136): a stable sort by ascending index, modelled by
insertion sort (JavaScript's Array.prototype.sort is stable). -/
def sortParams (params : List ParamMetadata) : List ParamMetadata :=
  List.insertionSort paramLE params

/-- The comparison underlying `middlewares.sort((m1, m2) => m1.priority -
m2.priority)`: ascending priority. -/
def midLE (a b : MiddlewareMetadata) : Prop := a.priority ≤ b.priority

instance : DecidableRel midLE := fun a b => Int.decLe a.priority b.priority

instance : IsTotal MiddlewareMetadata midLE := ⟨fun a b => Int.le_total a.priority b.priority⟩

instance : IsTrans MiddlewareMetadata midLE := ⟨fun _ _ _ h₁ h₂ => Int.le_trans h₁ h₂⟩

/-- `registerMiddlewares` (lines 75-87): sorts the middleware metadata by
ascending priority and installs each wrapper on the root transport in that
order; the returned list is the installation order of the `io.use` calls. -/
def registerMiddlewares (middlewares : List MiddlewareMetadata) : List MiddlewareMetadata :=
  List.insertionSort midLE middlewares

/-- The `try JSON.parse` step of `parseParamValue` (lines 201-206): a textual
value is parsed as JSON, a parse failure becoming a `ParameterParseJsonError`
carrying the raw value; a non-textual value passes through. -/
def parseStep (env : Env) (value : JsVal) : Except JsError JsVal :=
  match value with
  | .str s =>
    match env.jsonParse s with
    | some v => .ok v
    | none => .error (.parameterParseJsonError (.str s))
  | v => .ok v

/-- Whether the instance built for a message-body parameter is validated
(parseParamValue, lines 211-215): the parameter's MessageBodyOptions
`validate` field when given, else the executor's global `validate` flag. -/
def validateEnabled (exec : ExecConfig) (param : ParamMetadata) : Bool :=
  match param.value with
  | .bodyOptions (some b) => b
  | _ => exec.validate

/-- The second half of `parseParamValue` (lines 208-227), applied to the
already-parsed plain value: when the reflected type is a truthy non-`Object`
type and class transformation is enabled, map the plain structure to an
instance and optionally validate it, raising `ValidationException` with the
full error list when any errors are reported; otherwise return the plain
value. -/
def mapAndValidate (exec : ExecConfig) (env : Env) (parseValue : JsVal)
    (paramMetadata : ParamMetadata) : Except JsError JsVal :=
  if paramMetadata.reflectedType ≠ ReflectedType.objectCtor
      ∧ paramMetadata.reflectedType.isTruthy = true ∧ exec.useClassTransformer = true then
    let classTransformOptions :=
      paramMetadata.classTransformOptions <|> exec.plainToClassTransformOptions
    let inst := env.plainToClass paramMetadata.reflectedType parseValue classTransformOptions
    if validateEnabled exec paramMetadata then
      let errors := env.validate inst
      if errors.length > 0 then
        .error (.validationException errors)
      else
        .ok inst
    else
      .ok inst
  else
    .ok parseValue

/-- `parseParamValue` (lines 200-228): JSON-parse textual payloads through
`parseStep`, then map and optionally validate through `mapAndValidate`. -/
def parseParamValue (exec : ExecConfig) (env : Env) (value : JsVal)
    (paramMetadata : ParamMetadata) : Except JsError JsVal :=
  match parseStep env value with
  | .error e => .error e
  | .ok parseValue => mapAndValidate exec env parseValue paramMetadata

/-- `handleParamFormat` (lines 174-198): branch on the lower-cased name of the
reflected type; numbers through unary `+`, strings unchanged, booleans via the
"true"/"false" literals then truthiness, and object-like formats through
`parseParamValue` when the value is truthy. -/
def handleParamFormat (exec : ExecConfig) (env : Env) (value : JsVal)
    (param : ParamMetadata) : Except JsError JsVal :=
  let format := param.reflectedType
  let formatName := format.formatName
  if lowerStr formatName = "number" then
    .ok (.num (toNumber value))
  else if lowerStr formatName = "string" then
    .ok value
  else if lowerStr formatName = "boolean" then
    if value = .str "true" then .ok (.bool true)
    else if value = .str "false" then .ok (.bool false)
    else .ok (.bool (truthy value))
  else
    let isObjectFormat := format.isFunction || lowerStr formatName == "object"
    if truthy value && isObjectFormat then
      parseParamValue exec env value param
    else
      .ok value

/-- The raw-resolution part of `handleParam` (lines 165-166): the event
payload, passed through `handleParamFormat` unless it is `null`, `undefined`
or the empty string. -/
def handleParamRaw (exec : ExecConfig) (env : Env) (param : ParamMetadata)
    (data : JsVal) : Except JsError JsVal :=
  if data != JsVal.null && data != JsVal.undefined && data != JsVal.str "" then
    handleParamFormat exec env data param
  else
    .ok data

/-- `handleParam` (lines 164-172): raw resolution followed, when the parameter
declares a `transform` function, by applying it to the value and the socket. -/
def handleParam (exec : ExecConfig) (env : Env) (param : ParamMetadata)
    (socket : Socket) (data : JsVal) : Except JsError JsVal :=
  match handleParamRaw exec env param data with
  | .error e => .error e
  | .ok value =>
    match param.transform with
    | some f => .ok (f value socket.toVal)
    | none => .ok value

/-- The per-parameter resolution of `handleAction` (lines 136-152): the six
socket-context kinds read the invocation context directly; everything else
(the message body) goes through `handleParam`. -/
def resolveParam (exec : ExecConfig) (env : Env) (socket : Socket) (data : JsVal)
    (param : ParamMetadata) : Except JsError JsVal :=
  match param.type with
  | .connectedSocket => .ok socket.toVal
  | .socketIo => .ok exec.io
  | .socketQueryParam => .ok (socket.handshakeQuery param.value.asName)
  | .socketId => .ok (.str socket.id)
  | .socketRequest => .ok socket.request
  | .socketRooms => .ok socket.rooms
  | .socketBody => handleParam exec env param socket data

/-- `Promise.all` over the parameter resolutions (lines 155-158): settles to
the list of values in positional order, or to a failure as soon as any
resolution failed (the intervening `.catch` re-throws the error verbatim). -/
def collectAll : List (Except JsError JsVal) → Except JsError (List JsVal)
  | [] => .ok []
  | x :: xs =>
    match x with
    | .error e => .error e
    | .ok v =>
      match collectAll xs with
      | .error e => .error e
      | .ok vs => .ok (v :: vs)

/-- Whether one settled parameter resolution is a rejection. -/
def isFail : Except JsError JsVal → Bool
  | .error _ => true
  | .ok _ => false

/-- `handleAction` (lines 134-162): sort the parameter descriptors by
ascending index, resolve each, join the resolutions, and hand the settled
argument list to the action's handler; any resolution failure settles the
whole invocation as that failure before the handler runs. -/
def handleActionOutcome (exec : ExecConfig) (env : Env) (action : ActionMetadata)
    (socket : Socket) (data : JsVal) : Except JsError JsVal :=
  match collectAll ((sortParams action.params).map (resolveParam exec env socket data)) with
  | .error e => .error e
  | .ok params => action.executeAction params

/-- `action.params.sort(...)` in `handleAction` (line 136) sorts the metadata's
own array in place (Array.prototype.sort mutates its receiver), so this is the
action metadata as observable after a dispatch of the action. -/
def dispatchedAction (action : ActionMetadata) : ActionMetadata :=
  { action with params := sortParams action.params }

/-- A payload emitted on the success path: the classToPlain flattening of an
object result, or the raw result value. -/
inductive SuccessPayload where
  | plain : PlainObj → SuccessPayload
  | raw : JsVal → SuccessPayload
deriving DecidableEq, Repr

/-- The observable effect of `handleSuccessResult`: one outbound emission
(with or without payload), one acknowledgment-callback call, or nothing. -/
inductive SuccessEffect where
  | emit : String → Option SuccessPayload → SuccessEffect
  | ack : JsVal → SuccessEffect
  | nothing : SuccessEffect
deriving DecidableEq, Repr

/-- The serialization of a successful result (handleSuccessResult, lines
232-234): classToPlain under the success policy's options (falling back to
the global ones) when class transformation is on and the result is an object,
else the raw result. -/
def successPayload (exec : ExecConfig) (env : Env) (result : JsVal)
    (succ : ResultMetadata) : SuccessPayload :=
  let transformOptions := succ.classTransformOptions <|> exec.classToPlainTransformOptions
  if exec.useClassTransformer && result.isObjectInstance then
    .plain (env.classToPlainVal result transformOptions)
  else
    .raw result

/-- `handleSuccessResult` (lines 230-243): the four-branch else-if chain over
(result present?, emit-on-success declared?, skipEmitOnEmptyResult, callback
given?). -/
def handleSuccessResult (exec : ExecConfig) (env : Env) (result : JsVal)
    (action : ActionMetadata) (clientCallback : Bool) : SuccessEffect :=
  let present := result != JsVal.null && result != JsVal.undefined
  if present && action.emitOnSuccess.isSome then
    let succ := action.emitOnSuccess.getD ⟨"", none⟩
    .emit succ.value (some (successPayload exec env result succ))
  else if !present && action.emitOnSuccess.isSome && !action.skipEmitOnEmptyResult then
    .emit (action.emitOnSuccess.getD ⟨"", none⟩).value none
  else if present && clientCallback then
    .ack result
  else if !present && clientCallback then
    .ack (JsVal.str "received")
  else
    .nothing

/-- A payload emitted on the failure path: the classToPlain flattening of the
error, the raw error value, or the error's string form (the fallback for an
Error whose flattened form has no own keys). -/
inductive EmitPayload where
  | plain : PlainObj → EmitPayload
  | errVal : JsError → EmitPayload
  | strVal : String → EmitPayload
deriving DecidableEq, Repr

/-- `Object.keys(transformedResult).length` over a failure payload: the keys
of the flattened form, the error's own keys, or (for a string) one key per
character. -/
def EmitPayload.keysLength : EmitPayload → Nat
  | .plain l => l.length
  | .errVal e => e.ownKeys.length
  | .strVal s => s.length

/-- One outbound emission of the failure path: the event name and its
payload (`none` when the event is emitted with no payload). -/
structure Emission where
  event : String
  payload : Option EmitPayload
deriving DecidableEq, Repr

/-- `errorMatchesType` (lines 272-274): compare the error's constructor name
with the `name` of the expected type reference. -/
def errorMatchesType (expectedType : TypeRef) (actualType : JsError) : Bool :=
  actualType.ctorName == expectedType.name

/-- The `else if (action.emitOnFail)` arm of the failure path (lines 257-262):
emit on the fail event, first replacing a flattened-to-empty Error by its
string form. -/
def emitOnFailBranch (e : JsError) (transformedResult : EmitPayload)
    (action : ActionMetadata) : List Emission :=
  match action.emitOnFail with
  | some f =>
    let tr :=
      if e.isErrorInstance && transformedResult.keysLength == 0 then
        EmitPayload.strVal e.toStr
      else
        transformedResult
    [⟨f.value, some tr⟩]
  | none => []

/-- `handleFailResult` (lines 245-270).  The result is the list of emissions
performed, or `none` when the method throws: with a present error and a
declared fail policy, line 247 reads `action.emitOnSuccess.classTransformOptions`,
which is a TypeError (a crash inside the dispatch chain's `.catch`, hence an
unhandled rejection) whenever no emit-on-success policy is declared. -/
def handleFailResult (exec : ExecConfig) (env : Env) (error : Option JsError)
    (action : ActionMetadata) : Option (List Emission) :=
  match error with
  | some e =>
    if action.emitOnFail.isSome || action.emitOnFailFor.isSome then
      match action.emitOnSuccess with
      | none => none
      | some succ =>
        let transformOptions :=
          succ.classTransformOptions <|> exec.classToPlainTransformOptions
        let transformedResult : EmitPayload :=
          if exec.useClassTransformer && e.isObjectInstance then
            .plain (env.classToPlain e transformOptions)
          else
            .errVal e
        some (
          match action.emitOnFailFor with
          | some ff =>
            match ff.errorType with
            | some t =>
              if errorMatchesType t e then
                [⟨ff.value, some transformedResult⟩]
              else
                emitOnFailBranch e transformedResult action
            | none => emitOnFailBranch e transformedResult action
          | none => emitOnFailBranch e transformedResult action)
    else
      some []
  | none =>
    if !action.skipEmitOnEmptyResult then
      match action.emitOnFail with
      | some f => some [⟨f.value, none⟩]
      | none =>
        match action.emitOnFailFor with
        | some ff => some [⟨ff.value, none⟩]
        | none => some []
    else
      some []

/-- The settled observable outcome of one message dispatch: the success
effect, or the failure path's emissions (`none` inside meaning the failure
path itself crashed, an unhandled rejection). -/
inductive DispatchEffect where
  | success : SuccessEffect → DispatchEffect
  | failure : Option (List Emission) → DispatchEffect

/-- The `ActionTypes.MESSAGE` listener body of `handleConnection` (lines
123-128): run `handleAction`, then route the settled outcome through
`handleSuccessResult` or `handleFailResult`. -/
def handleMessageEvent (exec : ExecConfig) (env : Env) (action : ActionMetadata)
    (socket : Socket) (data : JsVal) (fn : Bool) : DispatchEffect :=
  match handleActionOutcome exec env action socket data with
  | .ok result => .success (handleSuccessResult exec env result action fn)
  | .error e => .failure (handleFailResult exec env (some e) action)

/-! ### Concrete fixtures for the closed evaluations below -/

/-- A concrete instantiation of the external services: `JSON.parse` succeeds
only on the text of the empty document, `plainToClass` builds one instance,
`validate` reports two field errors, and the two flattening directions return
small plain objects. -/
def cEnv : Env where
  jsonParse := fun s => if s = "\x7b\x7d" then some (.obj 1) else none
  plainToClass := fun _ _ _ => .obj 2
  classToPlainVal := fun _ _ => [("id", .num (.int 1))]
  classToPlain := fun _ _ => [("message", .str "boom")]
  validate := fun _ => [⟨0⟩, ⟨1⟩]

/-- A concrete executor configuration with class transformation and global
validation enabled and no global transform options assigned. -/
def cExec : ExecConfig where
  useClassTransformer := true
  classToPlainTransformOptions := none
  plainToClassTransformOptions := none
  validate := true
  io := .obj 9

/-- A concrete connected socket. -/
def cSocket : Socket where
  oid := 7
  id := "sock-1"
  handshakeQuery := fun _ => .undefined
  request := .obj 8
  rooms := .obj 6

/-- A concrete message-body parameter at index 1 with a declared shape type
and validation forced on. -/
def cBodyParam : ParamMetadata where
  index := 1
  type := .socketBody
  value := .bodyOptions (some true)
  transform := none
  reflectedType := .func "CreateMessageDto"
  classTransformOptions := none

/-- A concrete connection-handle parameter at index 0. -/
def cSocketParam : ParamMetadata where
  index := 0
  type := .connectedSocket
  value := .undef
  transform := none
  reflectedType := .undef
  classTransformOptions := none

/-- A concrete message-body parameter whose reflected type is the `Number`
constructor. -/
def pNum : ParamMetadata where
  index := 0
  type := .socketBody
  value := .undef
  transform := none
  reflectedType := .func "Number"
  classTransformOptions := none

/-- A concrete message-body parameter whose reflected type is the `Boolean`
constructor. -/
def pBool : ParamMetadata where
  index := 0
  type := .socketBody
  value := .undef
  transform := none
  reflectedType := .func "Boolean"
  classTransformOptions := none

/-- A concrete connection-handle parameter that declares a transform
function. -/
def pSockTransform : ParamMetadata :=
  { cSocketParam with transform := some (fun _ _ => .str "transformed") }

/-- A concrete handler error: a plain `Error` instance with no own keys. -/
def errBoom : JsError :=
  .appError { ctorName := "Error", isError := true, isObject := true,
              ownKeys := [], toStr := "Error: boom" }

/-- A concrete `ValidationException` carrying two field errors. -/
def valErr : JsError := .validationException [⟨0⟩, ⟨1⟩]

/-- The emit-on-fail policy of the sample controller's `save` action. -/
def failPolicy : ResultMetadata := ⟨"save/error", none⟩

/-- The emit-on-success policy of the sample controller's `save` action. -/
def succPolicy : ResultMetadata := ⟨"save/success", none⟩

/-- The emit-on-fail-for policy of the sample controller's `save` action,
with its lazily supplied `ValidationException` type reference. -/
def failForPolicy : FailForMetadata :=
  ⟨"save/validation_error", none, some (fun _ => ⟨"ValidationException"⟩)⟩

/-- A trivial concrete handler. -/
def cHandler : List JsVal → Except JsError JsVal := fun _ => .ok .undefined

/-- A message action declaring only an emit-on-fail policy. -/
def actionFailOnly : ActionMetadata where
  name := "save"
  type := .message
  params := []
  emitOnSuccess := none
  emitOnFail := some failPolicy
  emitOnFailFor := none
  skipEmitOnEmptyResult := false
  executeAction := cHandler

/-- `actionFailOnly` with an emit-on-success policy also declared. -/
def actionFailWithSuccess : ActionMetadata :=
  { actionFailOnly with emitOnSuccess := some succPolicy }

/-- A message action declaring both failure policies and no success policy. -/
def actionBothFail : ActionMetadata :=
  { actionFailOnly with emitOnFailFor := some failForPolicy }

/-- `actionBothFail` with an emit-on-success policy also declared (the shape
of the sample controller's `save` action). -/
def actionBothFailWithSuccess : ActionMetadata :=
  { actionBothFail with emitOnSuccess := some succPolicy }

/-- A message action whose parameter descriptors are out of index order. -/
def cActionUnsorted : ActionMetadata where
  name := "save"
  type := .message
  params := [cBodyParam, cSocketParam]
  emitOnSuccess := some succPolicy
  emitOnFail := some failPolicy
  emitOnFailFor := some failForPolicy
  skipEmitOnEmptyResult := false
  executeAction := cHandler

/-- `cActionUnsorted` with its parameter descriptors in index order. -/
def cActionSorted : ActionMetadata :=
  { cActionUnsorted with params := [cSocketParam, cBodyParam] }

/-- A message action declaring an emit-on-success policy and
`skipEmitOnEmptyResult`. -/
def cActionSkip : ActionMetadata :=
  { actionFailOnly with
    emitOnSuccess := some succPolicy
    emitOnFail := none
    skipEmitOnEmptyResult := true }

/-- Two concrete middlewares with out-of-order priorities. -/
def cMids : List MiddlewareMetadata := [⟨2, 0⟩, ⟨1, 1⟩]

/-! ### Theorems -/

/-- C1 (code bug): the claim states that when the handler fails with a present
error and the action declares emit-on-fail (with or without an emit-on-success
policy), `handleFailResult` completes and emits on the configured failure
event rather than throwing.  The code violates this: line 247 reads
`action.emitOnSuccess.classTransformOptions`, so with no emit-on-success
policy declared the method throws a TypeError (modelled as `none`) and
nothing is emitted; with the success policy also declared it completes and
emits on the fail event as claimed. -/
theorem c1_fail_path_crashes_without_success_policy :
    handleFailResult cExec cEnv (some errBoom) actionFailOnly = none
    ∧ handleFailResult cExec cEnv (some errBoom) actionFailWithSuccess
      = some [⟨"save/error", some (.plain [("message", .str "boom")])⟩] := by
  constructor <;> rfl

/-- C2 (code bug): the claim states that with both emit-on-fail-for(T) and
emit-on-fail declared and an error that is an instance of T, only the
emit-on-fail-for event is emitted.  When no emit-on-success policy is also
declared the same line-247 slip as C1 makes `handleFailResult` throw before
any emission; with the success policy also declared (the sample controller's
shape) the lazily resolved type reference matches at dispatch time and
exactly the emit-on-fail-for event is emitted, never the emit-on-fail one. -/
theorem c2_fail_for_match_is_exclusive :
    handleFailResult cExec cEnv (some valErr) actionBothFail = none
    ∧ handleFailResult cExec cEnv (some valErr) actionBothFailWithSuccess
      = some [⟨"save/validation_error", some (.plain [("message", .str "boom")])⟩] := by
  constructor <;> rfl

/-- C3: for every action whose parameter descriptors carry pairwise-distinct
indices, the descriptor list the dispatch resolves from is strictly ascending
in `index` and a permutation of the declared list, and the argument list
handed to the handler is exactly the one resolved from that index-sorted
list. -/
theorem c3_arguments_sorted_by_index (exec : ExecConfig) (env : Env)
    (action : ActionMetadata) (socket : Socket) (data : JsVal)
    (h : (action.params.map (fun p => p.index)).Nodup) :
    List.Pairwise (fun p q : ParamMetadata => p.index < q.index) (sortParams action.params)
    ∧ (sortParams action.params).Perm action.params
    ∧ ∀ args, collectAll ((sortParams action.params).map (resolveParam exec env socket data))
        = Except.ok args →
        handleActionOutcome exec env action socket data = action.executeAction args := by
  have hperm : (sortParams action.params).Perm action.params :=
    List.perm_insertionSort paramLE action.params
  have hsorted : List.Sorted paramLE (sortParams action.params) :=
    List.sorted_insertionSort paramLE action.params
  have hne : List.Pairwise (fun p q : ParamMetadata => p.index ≠ q.index) action.params := by
    rw [List.Nodup, List.pairwise_map] at h
    exact h
  have hne' : List.Pairwise (fun p q : ParamMetadata => p.index ≠ q.index)
      (sortParams action.params) :=
    (List.Perm.pairwise_iff (fun {_ _} hpq h2 => hpq h2.symm) hperm).mpr hne
  refine ⟨?_, hperm, ?_⟩
  · exact (hsorted.and hne').imp (fun hab => Nat.lt_of_le_of_ne hab.1 hab.2)
  · intro args hargs
    unfold handleActionOutcome
    rw [hargs]

/-- C3 witness: at the concrete out-of-order action, the theorem yields a
strictly index-ascending permutation of the declared descriptors. -/
theorem c3_witness :
    List.Pairwise (fun p q : ParamMetadata => p.index < q.index) (sortParams cActionUnsorted.params)
    ∧ (sortParams cActionUnsorted.params).Perm cActionUnsorted.params :=
  ⟨(c3_arguments_sorted_by_index cExec cEnv cActionUnsorted cSocket JsVal.undefined (by decide)).1,
   (c3_arguments_sorted_by_index cExec cEnv cActionUnsorted cSocket JsVal.undefined (by decide)).2.1⟩

/-- C9 counterexample: dispatching an action whose descriptors are out of
index order mutates the registration state — `handleAction` sorts
`action.params` in place, so the metadata observed after dispatch differs
from the metadata observed before. -/
theorem c9_counterexample :
    (dispatchedAction cActionUnsorted).params.map (fun p => p.index) = [0, 1]
    ∧ cActionUnsorted.params.map (fun p => p.index) = [1, 0]
    ∧ (dispatchedAction cActionUnsorted).params ≠ cActionUnsorted.params := by
  refine ⟨rfl, rfl, fun hcontra => ?_⟩
  have h01 : ([0, 1] : List Nat) = [1, 0] := by
    calc ([0, 1] : List Nat)
        = (dispatchedAction cActionUnsorted).params.map (fun p => p.index) := rfl
      _ = cActionUnsorted.params.map (fun p => p.index) := by rw [hcontra]
      _ = [1, 0] := rfl
  simp at h01

/-- C9 amended: the in-place index sort of `action.params` is the only
mutation a dispatch performs on the registration state, and it is idempotent —
for every action whose descriptor list is already sorted by index (in
particular any action after its first dispatch), the metadata observed before
and after dispatch is identical. -/
theorem c9_amended_sorted_params_fixpoint (action : ActionMetadata)
    (h : List.Sorted paramLE action.params) :
    dispatchedAction action = action := by
  unfold dispatchedAction sortParams
  rw [List.Sorted.insertionSort_eq h]

/-- C9 witness: the concrete index-sorted action is untouched by dispatch. -/
theorem c9_witness :
    List.Sorted paramLE cActionSorted.params
    ∧ dispatchedAction cActionSorted = cActionSorted :=
  ⟨by decide, c9_amended_sorted_params_fixpoint cActionSorted (by decide)⟩

/-- C10: `registerMiddlewares` installs every middleware exactly once
(installation order is a permutation of the built metadata) and in ascending
priority order: a middleware with a strictly smaller priority is installed on
the root transport strictly earlier. -/
theorem c10_middlewares_installed_by_priority (middlewares : List MiddlewareMetadata) :
    (registerMiddlewares middlewares).Perm middlewares
    ∧ ∀ (i j : Nat) (hi : i < (registerMiddlewares middlewares).length)
        (hj : j < (registerMiddlewares middlewares).length),
        ((registerMiddlewares middlewares).get ⟨i, hi⟩).priority
          < ((registerMiddlewares middlewares).get ⟨j, hj⟩).priority → i < j := by
  have hperm : (registerMiddlewares middlewares).Perm middlewares :=
    List.perm_insertionSort midLE middlewares
  have hsorted : List.Sorted midLE (registerMiddlewares middlewares) :=
    List.sorted_insertionSort midLE middlewares
  refine ⟨hperm, fun i j hi hj hlt => ?_⟩
  rcases Nat.lt_trichotomy i j with h1 | h2 | h3
  · exact h1
  · subst h2
    exact absurd hlt (lt_irrefl _)
  · have hle : midLE ((registerMiddlewares middlewares).get ⟨j, hj⟩)
        ((registerMiddlewares middlewares).get ⟨i, hi⟩) :=
      List.pairwise_iff_get.mp hsorted ⟨j, hj⟩ ⟨i, hi⟩ h3
    exact absurd hlt (not_lt.mpr hle)

/-- C10 witness: with two concrete middlewares of priorities 2 and 1, the
theorem yields that installation is a permutation and that the
strictly-smaller-priority middleware (at installed position 0) precedes the
other. -/
theorem c10_witness :
    (registerMiddlewares cMids).Perm cMids ∧ (0 : Nat) < 1 :=
  ⟨(c10_middlewares_installed_by_priority cMids).1,
   (c10_middlewares_installed_by_priority cMids).2 0 1 (by decide) (by decide) (by decide)⟩

/-- C4 counterexample: with an emit-on-success policy declared,
`skipEmitOnEmptyResult` set, an absent result and a supplied acknowledgment
callback, the callback IS invoked (with "received") even though a policy is
declared, refuting "with a policy declared the callback is never invoked". -/
theorem c4_counterexample :
    cActionSkip.emitOnSuccess.isSome = true
    ∧ handleSuccessResult cExec cEnv JsVal.null cActionSkip true
      = SuccessEffect.ack (JsVal.str "received") := by
  constructor <;> rfl

/-- C4 amended: emission takes priority whenever a policy is declared and the
result is present or `skipEmitOnEmptyResult` is unset; with no policy the
callback receives the present value, or "received" for an absent one; and the
callback can additionally fire (with "received") when the value is absent, a
policy is declared and `skipEmitOnEmptyResult` is set — that is the only case
in which a declared policy coexists with a callback invocation. -/
theorem c4_amended_ack_fallback (exec : ExecConfig) (env : Env) (result : JsVal)
    (action : ActionMetadata) (cb : Bool) :
    ((result != JsVal.null && result != JsVal.undefined) = true →
      action.emitOnSuccess = none → cb = true →
      handleSuccessResult exec env result action cb = SuccessEffect.ack result)
    ∧ ((result != JsVal.null && result != JsVal.undefined) = false →
      action.emitOnSuccess = none → cb = true →
      handleSuccessResult exec env result action cb = SuccessEffect.ack (JsVal.str "received"))
    ∧ ((result != JsVal.null && result != JsVal.undefined) = false →
      action.skipEmitOnEmptyResult = true → cb = true →
      handleSuccessResult exec env result action cb = SuccessEffect.ack (JsVal.str "received"))
    ∧ (∀ succ, action.emitOnSuccess = some succ →
      ((result != JsVal.null && result != JsVal.undefined) = true
        ∨ action.skipEmitOnEmptyResult = false) →
      ∃ pl, handleSuccessResult exec env result action cb = SuccessEffect.emit succ.value pl)
    ∧ (∀ v, handleSuccessResult exec env result action cb = SuccessEffect.ack v →
      action.emitOnSuccess = none
        ∨ ((result != JsVal.null && result != JsVal.undefined) = false
            ∧ action.skipEmitOnEmptyResult = true)) := by
  refine ⟨?_, ?_, ?_, ?_, ?_⟩
  · intro hP hE hcb
    subst hcb
    simp [handleSuccessResult, hP, hE]
  · intro hP hE hcb
    subst hcb
    simp [handleSuccessResult, hP, hE]
  · intro hP hS hcb
    subst hcb
    cases hE : action.emitOnSuccess <;> simp [handleSuccessResult, hP, hS, hE]
  · intro succ hE hpres
    rcases hpres with hP | hS
    · exact ⟨some (successPayload exec env result succ), by simp [handleSuccessResult, hP, hE]⟩
    · cases hP : (result != JsVal.null && result != JsVal.undefined)
      · exact ⟨none, by simp [handleSuccessResult, hP, hS, hE]⟩
      · exact ⟨some (successPayload exec env result succ), by simp [handleSuccessResult, hP, hE]⟩
  · intro v hv
    cases hE : action.emitOnSuccess with
    | none => exact Or.inl rfl
    | some succ =>
      right
      cases hP : (result != JsVal.null && result != JsVal.undefined) with
      | true => simp [handleSuccessResult, hP, hE] at hv
      | false =>
        refine ⟨rfl, ?_⟩
        cases hS : action.skipEmitOnEmptyResult with
        | true => rfl
        | false => simp [handleSuccessResult, hP, hE, hS] at hv

/-- C4 witness: at a concrete present value, no policy and a callback, the
amended theorem yields the single direct acknowledgment with the value. -/
theorem c4_witness :
    handleSuccessResult cExec cEnv (JsVal.str "v") actionFailOnly true
      = SuccessEffect.ack (JsVal.str "v") :=
  (c4_amended_ack_fallback cExec cEnv (JsVal.str "v") actionFailOnly true).1 (by decide) rfl rfl

/-- C5 counterexample: a connection-handle parameter declaring a transform
resolves to the socket itself — the transform (whose application would have
produced the string "transformed") is not applied, refuting "for every source
kind". -/
theorem c5_counterexample :
    pSockTransform.transform.isSome = true
    ∧ resolveParam cExec cEnv cSocket (JsVal.str "d") pSockTransform = Except.ok cSocket.toVal
    ∧ resolveParam cExec cEnv cSocket (JsVal.str "d") pSockTransform
        ≠ Except.ok (JsVal.str "transformed") := by
  refine ⟨rfl, rfl, fun h => ?_⟩
  rw [show resolveParam cExec cEnv cSocket (JsVal.str "d") pSockTransform
      = Except.ok cSocket.toVal from rfl] at h
  simp [Socket.toVal, cSocket] at h

/-- C5 amended: the declared `transform` function is applied (to the resolved
value and the connection handle) only for parameters resolved through the
message-body path; for the six socket-context source kinds the resolved value
is returned with the transform ignored. -/
theorem c5_amended_transform_only_for_body (exec : ExecConfig) (env : Env)
    (socket : Socket) (data : JsVal) (param : ParamMetadata) :
    (param.type ≠ ParamType.socketBody →
      resolveParam exec env socket data param
        = resolveParam exec env socket data { param with transform := none })
    ∧ (∀ f, param.type = ParamType.socketBody → param.transform = some f →
      resolveParam exec env socket data param
        = (handleParamRaw exec env param data).map (fun v => f v socket.toVal)) := by
  constructor
  · intro hty
    rcases hpt : param.type
    case socketBody => exact absurd hpt hty
    all_goals simp [resolveParam, hpt]
  · intro f hty htr
    unfold resolveParam
    rw [hty]
    unfold handleParam
    cases hraw : handleParamRaw exec env param data <;> simp [htr, hraw, Except.map]

/-- C5 witness: for a concrete query-parameter descriptor (non-body kind) the
resolution ignores the transform slot, and for a concrete body descriptor
with a transform the resolution is the transformed raw value. -/
theorem c5_witness :
    (resolveParam cExec cEnv cSocket (JsVal.str "d") pSockTransform
      = resolveParam cExec cEnv cSocket (JsVal.str "d") { pSockTransform with transform := none })
    ∧ resolveParam cExec cEnv cSocket (JsVal.str "q")
        { pNum with transform := some (fun _ _ => JsVal.str "transformed") }
      = (handleParamRaw cExec cEnv
            { pNum with transform := some (fun _ _ => JsVal.str "transformed") }
            (JsVal.str "q")).map (fun _ => JsVal.str "transformed") :=
  ⟨(c5_amended_transform_only_for_body cExec cEnv cSocket (JsVal.str "d") pSockTransform).1
      (by decide),
   (c5_amended_transform_only_for_body cExec cEnv cSocket (JsVal.str "q")
      { pNum with transform := some (fun _ _ => JsVal.str "transformed") }).2
      (fun _ _ => JsVal.str "transformed") rfl rfl⟩

/-- When no transform is declared, parameter handling is exactly the raw
resolution. -/
theorem handleParam_no_transform (exec : ExecConfig) (env : Env) (p : ParamMetadata)
    (socket : Socket) (data : JsVal) (htr : p.transform = none) :
    handleParam exec env p socket data = handleParamRaw exec env p data := by
  unfold handleParam
  cases handleParamRaw exec env p data <;> simp [htr]

/-- With the `Number` constructor as reflected type, formatting is the unary
`+` coercion. -/
theorem handleParamFormat_number (exec : ExecConfig) (env : Env) (value : JsVal)
    (p : ParamMetadata) (hrt : p.reflectedType = ReflectedType.func "Number") :
    handleParamFormat exec env value p = .ok (.num (toNumber value)) := by
  unfold handleParamFormat
  rw [hrt]
  rw [if_pos (by decide)]

/-- With the `Boolean` constructor as reflected type, formatting is the
literal "true"/"false" test followed by truthiness. -/
theorem handleParamFormat_boolean (exec : ExecConfig) (env : Env) (value : JsVal)
    (p : ParamMetadata) (hrt : p.reflectedType = ReflectedType.func "Boolean") :
    handleParamFormat exec env value p
      = if value = .str "true" then .ok (.bool true)
        else if value = .str "false" then .ok (.bool false)
        else .ok (.bool (truthy value)) := by
  unfold handleParamFormat
  rw [hrt]
  rw [if_neg (by decide), if_neg (by decide), if_pos (by decide)]

/-- C6: message-body coercion — declared type `Number` turns "42" into the
number 42 and any non-numeric string into NaN without failing; declared type
`Boolean` maps the literal "true" to true, the literal "false" to false, and
any other (non-bypassed) raw value to its truthiness; and a raw payload of
null, undefined or the empty string bypasses coercion and passes through
unchanged for every descriptor. -/
theorem c6_body_type_coercion (exec : ExecConfig) (env : Env) (socket : Socket) :
    (∀ p, p.reflectedType = ReflectedType.func "Number" → p.transform = none →
      handleParam exec env p socket (.str "42") = .ok (.num (.int 42)))
    ∧ (∀ p s, p.reflectedType = ReflectedType.func "Number" → p.transform = none →
      trimChars s.data ≠ [] → decNumeral? (trimChars s.data) = none →
      handleParam exec env p socket (.str s) = .ok (.num .nan))
    ∧ (∀ p, p.reflectedType = ReflectedType.func "Boolean" → p.transform = none →
      handleParam exec env p socket (.str "true") = .ok (.bool true))
    ∧ (∀ p, p.reflectedType = ReflectedType.func "Boolean" → p.transform = none →
      handleParam exec env p socket (.str "false") = .ok (.bool false))
    ∧ (∀ p v, p.reflectedType = ReflectedType.func "Boolean" → p.transform = none →
      v ≠ JsVal.str "true" → v ≠ JsVal.str "false" → v ≠ JsVal.null →
      v ≠ JsVal.undefined → v ≠ JsVal.str "" →
      handleParam exec env p socket v = .ok (.bool (truthy v)))
    ∧ (∀ p v, p.transform = none →
      (v = JsVal.null ∨ v = JsVal.undefined ∨ v = JsVal.str "") →
      handleParam exec env p socket v = .ok v) := by
  refine ⟨?_, ?_, ?_, ?_, ?_, ?_⟩
  · intro p hrt htr
    rw [handleParam_no_transform exec env p socket _ htr]
    unfold handleParamRaw
    rw [if_pos (by decide)]
    rw [handleParamFormat_number exec env _ p hrt]
    rfl
  · intro p s hrt htr htrim hnum
    have hs : s ≠ "" := fun h => htrim (by rw [h]; decide)
    rw [handleParam_no_transform exec env p socket _ htr]
    unfold handleParamRaw
    rw [if_pos (by simp [hs])]
    rw [handleParamFormat_number exec env _ p hrt]
    show Except.ok (JsVal.num (strToNumber s)) = _
    unfold strToNumber
    rw [if_neg htrim, hnum]
  · intro p hrt htr
    rw [handleParam_no_transform exec env p socket _ htr]
    unfold handleParamRaw
    rw [if_pos (by decide)]
    rw [handleParamFormat_boolean exec env _ p hrt]
    rw [if_pos rfl]
  · intro p hrt htr
    rw [handleParam_no_transform exec env p socket _ htr]
    unfold handleParamRaw
    rw [if_pos (by decide)]
    rw [handleParamFormat_boolean exec env _ p hrt]
    rw [if_neg (by decide), if_pos rfl]
  · intro p v hrt htr hvt hvf hvn hvu hve
    rw [handleParam_no_transform exec env p socket _ htr]
    unfold handleParamRaw
    rw [if_pos (by simp [hvn, hvu, hve])]
    rw [handleParamFormat_boolean exec env _ p hrt]
    rw [if_neg hvt, if_neg hvf]
  · intro p v htr hv
    rw [handleParam_no_transform exec env p socket _ htr]
    unfold handleParamRaw
    rcases hv with rfl | rfl | rfl <;> rw [if_neg (by decide)]

/-- C6 witness: the concrete coercions at "42", "abc", "true", "false", "1"
and the empty-string bypass. -/
theorem c6_witness :
    handleParam cExec cEnv pNum cSocket (JsVal.str "42") = .ok (.num (.int 42))
    ∧ handleParam cExec cEnv pNum cSocket (JsVal.str "abc") = .ok (.num .nan)
    ∧ handleParam cExec cEnv pBool cSocket (JsVal.str "true") = .ok (.bool true)
    ∧ handleParam cExec cEnv pBool cSocket (JsVal.str "false") = .ok (.bool false)
    ∧ handleParam cExec cEnv pBool cSocket (JsVal.str "1") = .ok (.bool true)
    ∧ handleParam cExec cEnv pNum cSocket (JsVal.str "") = .ok (JsVal.str "") :=
  ⟨(c6_body_type_coercion cExec cEnv cSocket).1 pNum rfl rfl,
   (c6_body_type_coercion cExec cEnv cSocket).2.1 pNum "abc" rfl rfl (by decide) (by decide),
   (c6_body_type_coercion cExec cEnv cSocket).2.2.1 pBool rfl rfl,
   (c6_body_type_coercion cExec cEnv cSocket).2.2.2.1 pBool rfl rfl,
   (c6_body_type_coercion cExec cEnv cSocket).2.2.2.2.1 pBool (JsVal.str "1") rfl rfl
     (by decide) (by decide) (by decide) (by decide) (by decide),
   (c6_body_type_coercion cExec cEnv cSocket).2.2.2.2.2 pNum (JsVal.str "") rfl
     (Or.inr (Or.inr rfl))⟩

/-- If some element of a resolution list is a rejection, joining the list
settles as a rejection. -/
theorem collectAll_error_of_mem {l : List (Except JsError JsVal)}
    (h : ∃ x ∈ l, isFail x = true) : ∃ e, collectAll l = .error e := by
  induction l with
  | nil =>
    rcases h with ⟨x, hx, _⟩
    exact absurd hx (List.not_mem_nil x)
  | cons a t ih =>
    rcases h with ⟨x, hx, hxe⟩
    cases a with
    | error e => exact ⟨e, rfl⟩
    | ok v =>
      rcases List.mem_cons.mp hx with rfl | hxt
      · simp [isFail] at hxe
      · rcases ih ⟨x, hxt, hxe⟩ with ⟨e, he⟩
        exact ⟨e, by simp [collectAll, he]⟩

/-- C7: when any single parameter resolution of an action fails, there is one
error with which the whole invocation settles as a failure no matter what the
handler is (the handler is never consulted), and the message dispatch routes
that error into `handleFailResult` — the same failure path handler errors
take. -/
theorem c7_param_failure_aborts_invocation (exec : ExecConfig) (env : Env)
    (action : ActionMetadata) (socket : Socket) (data : JsVal) (fn : Bool)
    (h : ∃ p ∈ action.params, isFail (resolveParam exec env socket data p) = true) :
    ∃ e : JsError,
      (∀ g, handleActionOutcome exec env { action with executeAction := g } socket data
          = Except.error e)
      ∧ (∀ g, handleMessageEvent exec env { action with executeAction := g } socket data fn
          = DispatchEffect.failure (handleFailResult exec env (some e)
              { action with executeAction := g })) := by
  rcases h with ⟨p, hp, hpe⟩
  have hp' : p ∈ sortParams action.params := by
    simpa [sortParams] using hp
  have hmem : ∃ x ∈ (sortParams action.params).map (resolveParam exec env socket data),
      isFail x = true :=
    ⟨resolveParam exec env socket data p, List.mem_map_of_mem _ hp', hpe⟩
  rcases collectAll_error_of_mem hmem with ⟨e, he⟩
  refine ⟨e, fun g => ?_, fun g => ?_⟩
  · unfold handleActionOutcome
    rw [show ({ action with executeAction := g } : ActionMetadata).params
        = action.params from rfl]
    rw [he]
  · unfold handleMessageEvent
    unfold handleActionOutcome
    rw [show ({ action with executeAction := g } : ActionMetadata).params
        = action.params from rfl]
    rw [he]

/-- C7 witness: a message action with a body parameter whose payload fails to
parse as JSON settles as that parse failure for any handler, and the dispatch
routes it into the failure path. -/
theorem c7_witness :
    isFail (resolveParam cExec cEnv cSocket (JsVal.str "no") cBodyParam) = true
    ∧ ∀ g, handleActionOutcome cExec cEnv { cActionUnsorted with executeAction := g }
        cSocket (JsVal.str "no")
        = Except.error (JsError.parameterParseJsonError (JsVal.str "no")) := by
  constructor
  · rfl
  · intro g
    rcases c7_param_failure_aborts_invocation cExec cEnv cActionUnsorted cSocket
        (JsVal.str "no") false ⟨cBodyParam, by simp [cActionUnsorted], rfl⟩ with ⟨e, h1, _⟩
    have he : e = JsError.parameterParseJsonError (JsVal.str "no") := by
      have := h1 cHandler
      rw [show ({ cActionUnsorted with executeAction := cHandler } : ActionMetadata)
          = cActionUnsorted from rfl] at this
      have hconc : handleActionOutcome cExec cEnv cActionUnsorted cSocket (JsVal.str "no")
          = Except.error (JsError.parameterParseJsonError (JsVal.str "no")) := rfl
      rw [hconc] at this
      exact (Except.error.inj this).symm
    rw [← he]
    exact h1 g

/-- C8: for a message-body parameter with a declared shape type and validation
enabled, when the external validation of the mapped instance reports a
non-empty error list, resolution fails with a `ValidationException` carrying
exactly that complete error list, and any action carrying that parameter
settles as this failure without its handler ever being consulted. -/
theorem c8_validation_carries_full_error_list (exec : ExecConfig) (env : Env)
    (socket : Socket) (data parsed : JsVal) (p : ParamMetadata) (n : String)
    (errs : List ValidationError)
    (hty : p.type = ParamType.socketBody)
    (hrt : p.reflectedType = ReflectedType.func n)
    (hnum : lowerStr n ≠ "number") (hstr : lowerStr n ≠ "string")
    (hbool : lowerStr n ≠ "boolean")
    (htr : truthy data = true)
    (hparse : parseStep env data = Except.ok parsed)
    (huct : exec.useClassTransformer = true)
    (hval : validateEnabled exec p = true)
    (herrs : env.validate (env.plainToClass p.reflectedType parsed
        (p.classTransformOptions <|> exec.plainToClassTransformOptions)) = errs)
    (hne : errs ≠ []) :
    resolveParam exec env socket data p
      = Except.error (JsError.validationException errs)
    ∧ ∀ (action : ActionMetadata), action.params = [p] →
        ∀ g, handleActionOutcome exec env { action with executeAction := g } socket data
          = Except.error (JsError.validationException errs) := by
  have hbypass : (data != JsVal.null && data != JsVal.undefined && data != JsVal.str "")
      = true := by
    rcases data with _ | _ | s | n' | b | o <;> simp_all [truthy]
  have hfmt : handleParamFormat exec env data p
      = Except.error (JsError.validationException errs) := by
    unfold handleParamFormat
    rw [hrt]
    simp only [ReflectedType.formatName]
    rw [if_neg hnum, if_neg hstr, if_neg hbool]
    rw [if_pos (show (truthy data
        && ((ReflectedType.func n).isFunction || (lowerStr n == "object"))) = true by
      simp [htr, ReflectedType.isFunction])]
    unfold parseParamValue
    rw [hparse]
    show mapAndValidate exec env parsed p = _
    unfold mapAndValidate
    rw [if_pos ⟨by rw [hrt]; exact fun h => ReflectedType.noConfusion h,
      by rw [hrt]; rfl, huct⟩]
    rw [if_pos hval]
    rw [herrs]
    rw [if_pos (List.length_pos.mpr hne)]
  have hres : resolveParam exec env socket data p
      = Except.error (JsError.validationException errs) := by
    unfold resolveParam
    rw [hty]
    unfold handleParam handleParamRaw
    rw [if_pos hbypass, hfmt]
  refine ⟨hres, fun action hap g => ?_⟩
  unfold handleActionOutcome
  rw [show ({ action with executeAction := g } : ActionMetadata).params
      = action.params from rfl]
  rw [hap]
  rw [show sortParams [p] = [p] from rfl]
  simp [collectAll, hres]

/-- C8 witness: a concrete shape-typed body parameter whose instance fails
validation with two field errors resolves to the `ValidationException`
carrying both errors. -/
theorem c8_witness :
    truthy (JsVal.str "\x7b\x7d") = true
    ∧ resolveParam cExec cEnv cSocket (JsVal.str "\x7b\x7d") cBodyParam
      = Except.error (JsError.validationException [⟨0⟩, ⟨1⟩]) :=
  ⟨rfl,
   (c8_validation_carries_full_error_list cExec cEnv cSocket (JsVal.str "\x7b\x7d")
      (JsVal.obj 1) cBodyParam "CreateMessageDto" [⟨0⟩, ⟨1⟩] rfl rfl
      (by decide) (by decide) (by decide) rfl rfl rfl rfl rfl (by decide)).1⟩

end SocketControllers
